import Mathlib

attribute [local semireducible] Rat.mul Rat.add Rat.sub Rat.inv Rat.ofScientific

/-!
Verification development for the Marketor repository (two Python batch
scripts: `influencer_parser.py` and `gmail_draft_generator.py`).

The Python code is shallowly embedded: every definition below translates the
corresponding Python function line by line.  Strings are modelled through
their character lists (`String.data`), Python `int` as `Int`/`Nat`, Python
`float` values that the scored heuristics compare against as `Rat`, Python
dictionaries that act as records as Lean structures with `Option` fields for
possibly-missing keys, and the assignment ledger (a `dict` keyed by address,
insertion ordered) as an association list.  File handles are replaced by the
parsed file contents (a list of lines).  Code paths that can raise in Python
(out-of-range indexing into the key pool) return an explicit error value.
-/

/-! ## Python string primitives -/

/-- Character used for ASCII apostrophes inside keyword tables. -/
def squote : Char := Char.ofNat 39

/-- Python `str.lower` on a single character.  `Char.toLower` lowers the
ASCII range, on which it agrees exactly with Python; the keyword tables it
is compared against are ASCII literals, and the addresses it is applied to
in `extract_emails` are ASCII by the regex character classes. -/
def pyCharLower (c : Char) : Char := c.toLower

/-- Python `str.lower` on a character list. -/
def pyLower (cs : List Char) : List Char := cs.map pyCharLower

/-- Python `str.lower` on a string. -/
def pyLowerS (s : String) : String := (pyLower s.data).asString

/-- Boolean prefix test on character lists. -/
def isPrefOf : List Char → List Char → Bool
  | [], _ => true
  | _ :: _, [] => false
  | a :: as, b :: bs => a == b && isPrefOf as bs

/-- Boolean substring test on character lists (`needle` occurs in `hay`). -/
def containsSub (needle : List Char) : List Char → Bool
  | [] => isPrefOf needle []
  | c :: rest => isPrefOf needle (c :: rest) || containsSub needle rest

/-- Python `needle in hay` for strings. -/
def pyIn (needle hay : String) : Bool := containsSub needle.data hay.data

/-- Whitespace characters removed by Python `str.strip`: exactly the code
points for which CPython `str.isspace` holds (ASCII whitespace, the
separator controls U+001C–U+001F, NEL U+0085, NBSP U+00A0, U+1680, the
U+2000–U+200A spaces, U+2028, U+2029, U+202F, U+205F and U+3000). -/
def pyIsSpace (c : Char) : Bool :=
  let n := c.toNat
  (9 ≤ n && n ≤ 13) || n == 32 || (28 ≤ n && n ≤ 31) || n == 133 || n == 160
    || n == 5760 || (8192 ≤ n && n ≤ 8202) || n == 8232 || n == 8233
    || n == 8239 || n == 8287 || n == 12288

/-- Python `str.strip` on a character list. -/
def pyStripL (cs : List Char) : List Char :=
  ((cs.dropWhile pyIsSpace).reverse.dropWhile pyIsSpace).reverse

/-- Python `str.strip` on a string. -/
def pyStrip (s : String) : String := (pyStripL s.data).asString

/-- Python `str.replace pat repl` (all non-overlapping occurrences, left to
right), driven by a fuel counter so that the definition is structurally
recursive and evaluates inside the kernel.  Every recursive call consumes at
least one character of the text (the patterns used by the source are never
empty), so `fuel = cs.length` is always sufficient. -/
def replaceAllF (pat repl : List Char) : Nat → List Char → List Char
  | 0, cs => cs
  | _, [] => []
  | fuel + 1, c :: rest =>
    if isPrefOf pat (c :: rest) then
      repl ++ replaceAllF pat repl fuel ((c :: rest).drop pat.length)
    else
      c :: replaceAllF pat repl fuel rest

/-- Python `str.replace` on character lists. -/
def replaceAll (pat repl cs : List Char) : List Char := replaceAllF pat repl cs.length cs

/-- Python `str.replace` on strings. -/
def pyReplace (s pat repl : String) : String :=
  (replaceAll pat.data repl.data s.data).asString

/-- Helper for `splitOnCharL`: `acc` holds the current chunk reversed. -/
def splitAux (sep : Char) : List Char → List Char → List (List Char)
  | [], acc => [acc.reverse]
  | c :: cs, acc =>
    if c = sep then acc.reverse :: splitAux sep cs [] else splitAux sep cs (c :: acc)

/-- Python `str.split(sep)` for a one-character separator. -/
def splitOnCharL (sep : Char) (cs : List Char) : List (List Char) := splitAux sep cs []

/-- Python `str.split(sep)` on strings. -/
def splitOnChar (sep : Char) (s : String) : List String :=
  (splitOnCharL sep s.data).map List.asString

/-! ## The email regular expression

`influencer_parser.extract_emails` matches the pattern
`\b[A-Za-z0-9._%+-]+@[A-Za-z0-9.-]+\.[A-Z|a-z]{2,}\b` with `re.findall`.
The matcher below implements exactly that pattern: a word boundary, a greedy
run of local-part characters, `@`, a greedy (backtracking) run of domain
characters, a literal dot, a greedy (backtracking) run of at least two
top-level-domain characters (note the class `[A-Z|a-z]` contains the literal
bar), and a closing word boundary.  `scanEmails` reproduces `re.findall`:
left-to-right scan, non-overlapping matches. -/

/-- Word characters for the regex `\b` boundary. -/
def isWordChar (c : Char) : Bool := c.isAlpha || c.isDigit || c == '_'

/-- The class `[A-Za-z0-9._%+-]` (local part). -/
def isLocalChar (c : Char) : Bool :=
  c.isAlpha || c.isDigit || c == '.' || c == '_' || c == '%' || c == '+' || c == '-'

/-- The class `[A-Za-z0-9.-]` (domain part). -/
def isDomChar (c : Char) : Bool := c.isAlpha || c.isDigit || c == '.' || c == '-'

/-- The class `[A-Z|a-z]` (top-level part; the bar is a literal member). -/
def isTldChar (c : Char) : Bool := c.isAlpha || c == '|'

/-- Word-character test of an optional character (`none` = out of bounds). -/
def wordB : Option Char → Bool
  | none => false
  | some c => isWordChar c

/-- Backtracking match of `[A-Z|a-z]{2,}\b` against the maximal run `trun`
inside `rest2`; the `Nat` argument is the number of characters currently
consumed, tried greedily from the run length down to 2. -/
def tryTld (trun rest2 : List Char) : Nat → Option (List Char × List Char)
  | 0 => none
  | 1 => none
  | t + 2 =>
    if wordB (trun.take (t + 2)).getLast? != wordB (rest2.drop (t + 2)).head? then
      some (trun.take (t + 2), rest2.drop (t + 2))
    else tryTld trun rest2 (t + 1)

/-- Backtracking match of `\.[A-Z|a-z]{2,}\b` after a run of domain
characters taken from `cs` (the text following the `@`); the `Nat` argument
is the number of domain characters consumed, tried greedily from the run
length down to 1. -/
def tryDom (cs : List Char) : Nat → Option (List Char × List Char)
  | 0 => none
  | d + 1 =>
    match cs.drop (d + 1) with
    | c :: rest2 =>
      if c = '.' then
        match tryTld (rest2.takeWhile isTldChar) rest2 (rest2.takeWhile isTldChar).length with
        | some (tld, after) => some (cs.take (d + 1) ++ '.' :: tld, after)
        | none => tryDom cs d
      else tryDom cs d
    | [] => tryDom cs d

/-- Attempt to match the whole email pattern at the current position.
`prev` is the character before the position (`none` at the start of the
text); it feeds the `\b` test.  Returns the match and the remaining text. -/
def tryEmail (prev : Option Char) (cs : List Char) : Option (List Char × List Char) :=
  match cs with
  | [] => none
  | c :: _ =>
    if (wordB prev != isWordChar c) && isLocalChar c then
      match cs.drop (cs.takeWhile isLocalChar).length with
      | a :: rest =>
        if a = '@' then
          match tryDom rest (rest.takeWhile isDomChar).length with
          | some (dom, after) => some (cs.takeWhile isLocalChar ++ '@' :: dom, after)
          | none => none
        else none
      | [] => none
    else none

/-- The `re.findall` scan: try a match at every position, left to right,
skipping over successful (non-overlapping) matches.  Fuel makes the
recursion structural; every step consumes at least one character, so
`fuel = cs.length` is always sufficient. -/
def scanEmailsF : Nat → Option Char → List Char → List (List Char)
  | 0, _, _ => []
  | _, _, [] => []
  | fuel + 1, prev, c :: rest =>
    match tryEmail prev (c :: rest) with
    | some (m, after) => m :: scanEmailsF fuel m.getLast? after
    | none => scanEmailsF fuel (some c) rest

/-- All regex matches of the email pattern in a character list. -/
def findEmails (cs : List Char) : List (List Char) := scanEmailsF cs.length none cs

/-! ## influencer_parser.extract_emails -/

/-- Placeholder / noreply markers excluded by `extract_emails`. -/
def skip_list : List String :=
  ["example.com", "domain.com", "email.com", "youremail", "noreply", "support@"]

/-- Translation of `influencer_parser.extract_emails`.  The chain of
`str.replace` calls and the filtering mirror the source line by line;
Python's `list(set(...))` returns the distinct addresses in an unspecified
order and is modelled by `List.dedup`. -/
def extract_emails (text : String) : List String :=
  if text = "" then []
  else
    let t1 := pyReplace (pyReplace (pyReplace text "[at]" "@") "(at)" "@") " at " "@"
    let t2 := pyReplace (pyReplace (pyReplace t1 "[dot]" ".") "(dot)" ".") " dot " "."
    let t3 := pyReplace (pyReplace t2 "[AT]" "@") "(AT)" "@"
    let t4 := pyReplace (pyReplace t3 "[DOT]" ".") "(DOT)" "."
    let t5 := pyReplace (pyReplace t4 " @ " "@") " . " "."
    let emails := (findEmails t5.data).map List.asString
    let filtered := emails.filter (fun e => !(skip_list.any (fun sk => pyIn sk (pyLowerS e))))
    filtered.dedup

/-! ## influencer_parser.analyze_sentiment -/

/-- Result record of `analyze_sentiment`. -/
structure SentimentResult where
  score : Rat
  sentiment : String
  indicators : List String
deriving DecidableEq

/-- Positive keyword table of `analyze_sentiment`. -/
def positive_keywords : List String :=
  ["indie", "independent games", "small studios", "indie dev",
   "support indie", "hidden gems", "indie titles", "indie scene",
   "unique games", "creative games", "innovative", "experimental",
   "passion project", "handcrafted", "artistic", "indie darling"]

/-- Negative keyword table of `analyze_sentiment`. -/
def negative_keywords : List String :=
  ["aaa only", "no indie", "major titles only", "big budget only",
   "triple-a exclusive"]

/-- Neutral keyword table of `analyze_sentiment`. -/
def neutral_keywords : List String :=
  ["all games", "variety", "mixed content", "different genres"]

/-- Python `round(x, 2)`: the reachable scores are integer multiples of 1/2,
on which rounding to two decimal places is the identity whatever the tie
rule, so the rounding mode is immaterial. -/
def round2 (q : Rat) : Rat := (Rat.floor (q * 100 + 1 / 2) : Int) / 100

/-- Translation of `influencer_parser.analyze_sentiment`. -/
def analyze_sentiment (text : String) : SentimentResult :=
  if text = "" then ⟨0, "neutral", []⟩
  else
    let text_lower := pyLowerS text
    let positive_count := positive_keywords.countP (fun k => pyIn k text_lower)
    let negative_count := negative_keywords.countP (fun k => pyIn k text_lower)
    let neutral_count := neutral_keywords.countP (fun k => pyIn k text_lower)
    let score : Rat := (positive_count * 2 : Int) - (negative_count * 3 : Int)
      + (neutral_count : Rat) * (1 / 2)
    let score := max (-10) (min 10 score)
    let sentiment :=
      if 3 ≤ score then "very_positive"
      else if 1 ≤ score then "positive"
      else if -1 ≤ score then "neutral"
      else if -3 ≤ score then "negative"
      else "very_negative"
    let indicators :=
      (positive_keywords.filter (fun k => pyIn k text_lower)).map (fun k => "+" ++ k)
        ++ (negative_keywords.filter (fun k => pyIn k text_lower)).map (fun k => "-" ++ k)
    ⟨round2 score, sentiment, indicators.take 5⟩

/-! ## influencer_parser.is_gaming_channel -/

/-- Developer-indicator phrase table of `is_gaming_channel`. -/
def dev_keywords : List String :=
  ["game developer", "game dev", "gamedev", "indie dev",
   "developing", "my game", "our game", "game studio",
   "game designer", "game artist", "game programmer",
   "unity tutorial", "unreal tutorial", "godot tutorial",
   "game development", "making games", "created by"]

/-- Gameplay-creator phrase table of `is_gaming_channel` (the fourth entry
is `let's play`, built with an explicit apostrophe character). -/
def creator_keywords : List String :=
  ["gameplay", "playthrough", "lets play", "let" ++ squote.toString ++ "s play",
   "walkthrough", "speedrun", "playing", "streamer",
   "twitch", "gamer", "gaming channel", "game review",
   "first impressions", "indie game showcase"]

/-- Off-topic phrase table of `is_gaming_channel`. -/
def non_gaming_keywords : List String :=
  ["vlog", "recipe", "cooking", "makeup", "fashion",
   "lifestyle", "music video", "official music"]

/-- Python `" ".join(parts)`. -/
def pyJoin (sep : String) : List String → String
  | [] => ""
  | [p] => p
  | p :: rest => p ++ sep ++ pyJoin sep rest

/-- The lowercased concatenation `description + " " + " ".join(titles)`. -/
def channelText (description : String) (video_titles : List String) : String :=
  pyLowerS (description ++ " " ++ pyJoin " " video_titles)

/-- The developer score: `sum(2 for keyword in dev_keywords if keyword in text)`. -/
def dev_score (description : String) (video_titles : List String) : Nat :=
  2 * dev_keywords.countP (fun k => pyIn k (channelText description video_titles))

/-- The creator score: `sum(1 for keyword in creator_keywords if keyword in text)`. -/
def creator_score (description : String) (video_titles : List String) : Nat :=
  creator_keywords.countP (fun k => pyIn k (channelText description video_titles))

/-- The off-topic score: `sum(1 for keyword in non_gaming if keyword in text)`. -/
def non_gaming_score (description : String) (video_titles : List String) : Nat :=
  non_gaming_keywords.countP (fun k => pyIn k (channelText description video_titles))

/-- Translation of `influencer_parser.is_gaming_channel`. -/
def is_gaming_channel (description : String) (video_titles : List String) : Bool :=
  if dev_score description video_titles > 1 then false
  else if non_gaming_score description video_titles > creator_score description video_titles
    then false
  else creator_score description video_titles ≥ 2

/-! ## influencer_parser.calculate_response_likelihood

The record collects exactly the keys the function reads.  `email_count` and
`followers` are integers in the source pipeline; `upload_frequency_days` and
`engagement_rate_numeric` are produced by `round(..., 1)` / `round(..., 2)`
and may be fractional, hence `Rat`.  The social-handle fields come from
`social_links.get(..., "")`, so Python truthiness is the test `≠ ""`. -/

structure RespInput where
  email_count : Nat
  has_business_terms : String
  twitter : String
  discord : String
  instagram : String
  indie_sentiment : String
  upload_frequency_days : Rat
  engagement_rate_numeric : Rat
  followers : Int
deriving DecidableEq

/-- Result record of `calculate_response_likelihood`. -/
structure RespResult where
  score : Int
  likelihood : String
  factors : List String
deriving DecidableEq

/-- The number of distinct contact channels counted by the source. -/
def contact_methods (d : RespInput) : Nat :=
  (if 0 < d.email_count then 1 else 0) + (if d.twitter ≠ "" then 1 else 0)
    + (if d.discord ≠ "" then 1 else 0) + (if d.instagram ≠ "" then 1 else 0)

/-- Translation of `influencer_parser.calculate_response_likelihood`.
Each Python `if`-block both adjusts `score` and appends a factor string; the
two effects are translated as two `if`s over the same condition. -/
def calculate_response_likelihood (d : RespInput) : RespResult :=
  let s1 : Int := if 0 < d.email_count then 50 + 20 else 50 - 15
  let s2 : Int := if d.has_business_terms = "Yes" then s1 + 15 else s1
  let s3 : Int := if 3 ≤ contact_methods d then s2 + 10 else s2
  let s4 : Int :=
    if d.indie_sentiment = "very_positive" then s3 + 10
    else if d.indie_sentiment = "positive" then s3 + 5
    else if d.indie_sentiment = "negative" ∨ d.indie_sentiment = "very_negative" then s3 - 10
    else s3
  let s5 : Int :=
    if 0 < d.upload_frequency_days ∧ d.upload_frequency_days ≤ 3 then s4 + 10
    else if d.upload_frequency_days ≤ 7 then s4 + 5
    else if 30 < d.upload_frequency_days then s4 - 10
    else s4
  let s6 : Int :=
    if 10 < d.engagement_rate_numeric then s5 + 10
    else if 5 < d.engagement_rate_numeric then s5 + 5
    else if d.engagement_rate_numeric < 1 ∧ 0 < d.engagement_rate_numeric then s5 - 5
    else s5
  let s7 : Int :=
    if 5000 ≤ d.followers ∧ d.followers ≤ 100000 then s6 + 10
    else if 500000 < d.followers then s6 - 10
    else s6
  let final : Int := max 0 (min 100 s7)
  let likelihood :=
    if 75 ≤ final then "Very High"
    else if 60 ≤ final then "High"
    else if 40 ≤ final then "Medium"
    else if 25 ≤ final then "Low"
    else "Very Low"
  let f1 : List String :=
    if 0 < d.email_count then ["✓ Email available"] else ["✗ No email found"]
  let f2 := if d.has_business_terms = "Yes" then f1 ++ ["✓ Open to business"] else f1
  let f3 :=
    if 3 ≤ contact_methods d then
      f2 ++ ["✓" ++ toString (contact_methods d) ++ " contact methods"]
    else f2
  let f4 :=
    if d.indie_sentiment = "very_positive" then f3 ++ ["✓ Very positive about indies"]
    else if d.indie_sentiment = "positive" then f3 ++ ["✓ Positive about indies"]
    else if d.indie_sentiment = "negative" ∨ d.indie_sentiment = "very_negative" then
      f3 ++ ["✗ Not focused on indies"]
    else f3
  let f5 :=
    if 0 < d.upload_frequency_days ∧ d.upload_frequency_days ≤ 3 then
      f4 ++ ["✓ Very active (posts daily)"]
    else if d.upload_frequency_days ≤ 7 then f4 ++ ["✓ Active (posts weekly)"]
    else if 30 < d.upload_frequency_days then f4 ++ ["✗ Inactive creator"]
    else f4
  let f6 :=
    if 10 < d.engagement_rate_numeric then f5 ++ ["✓ High engagement rate"]
    else if 5 < d.engagement_rate_numeric then f5 ++ ["✓ Good engagement"]
    else if d.engagement_rate_numeric < 1 ∧ 0 < d.engagement_rate_numeric then
      f5 ++ ["~ Low engagement"]
    else f5
  let f7 :=
    if 5000 ≤ d.followers ∧ d.followers ≤ 100000 then f6 ++ ["✓ Mid-tier size (responsive)"]
    else if 500000 < d.followers then f6 ++ ["~ Very large (less personal)"]
    else f6
  ⟨final, likelihood, f7⟩

/-- Email-availability score contribution (step 1 of the source). -/
def emailAdj (d : RespInput) : Int := if 0 < d.email_count then 20 else -15

/-- Business-terms score contribution (step 2 of the source). -/
def bizAdj (d : RespInput) : Int := if d.has_business_terms = "Yes" then 15 else 0

/-- Contact-method score contribution (step 3 of the source). -/
def contactAdj (d : RespInput) : Int := if 3 ≤ contact_methods d then 10 else 0

/-- Sentiment score contribution (step 4 of the source). -/
def sentAdj (d : RespInput) : Int :=
  if d.indie_sentiment = "very_positive" then 10
  else if d.indie_sentiment = "positive" then 5
  else if d.indie_sentiment = "negative" ∨ d.indie_sentiment = "very_negative" then -10
  else 0

/-- Engagement score contribution (step 6 of the source). -/
def engAdj (d : RespInput) : Int :=
  if 10 < d.engagement_rate_numeric then 10
  else if 5 < d.engagement_rate_numeric then 5
  else if d.engagement_rate_numeric < 1 ∧ 0 < d.engagement_rate_numeric then -5
  else 0

/-- Follower-count score contribution (step 7 of the source). -/
def folAdj (d : RespInput) : Int :=
  if 5000 ≤ d.followers ∧ d.followers ≤ 100000 then 10
  else if 500000 < d.followers then -10
  else 0

/-! ## gmail_draft_generator: constants and data model

Template strings of the source contain ASCII apostrophes; they are spliced
in through `ap` below so that every string literal in this file is
apostrophe-free. -/

/-- Apostrophe as a one-character string. -/
def ap : String := squote.toString

def GAME_NAME : String := "This is no cave"

def STEAM_RELEASE_DATE : String := "October 17th"

def YOUR_NAME : String := "Dimitri Kouliche"

def YOUR_STUDIO : String := "monome.studio"

def STEAM_PAGE : String := "https://store.steampowered.com/app/2852760/This_Is_No_Cave/"

def PRESS_KIT : String := "https://drive.google.com/drive/folders/15G7kTkI2JRpEGLLCwWsPjb02QjdazZX2"

def INSTAGRAM : String := "https://www.instagram.com/monome.studio/"

def TIKTOK : String := "https://www.tiktok.com/@monomestudio"

/-- Influencer record as consumed by the draft generator: one CSV row /
pipeline record, with `Option` for keys that may be absent from the dict.
`followers` is numeric, as produced by the discovery pipeline. -/
structure Influencer where
  display_name : Option String
  username : Option String
  platform : Option String
  followers : Option Int
  last_video_title : Option String
  last_game_played : Option String
  indie_sentiment : Option String
  primary_email : Option String
  emails : Option String
deriving DecidableEq

/-- Python `a or b` for an optional string `a` (both `None` and `""` are
falsy) against a string default `b`. -/
def pyOrStr (a : Option String) (b : String) : String :=
  match a with
  | some s => if s = "" then b else s
  | none => b

/-- Python first-list-element-after-split-and-strip, used for the default
recipient address `influencer.get('emails', '').split(',')[0].strip()`. -/
def firstEmailOf (emails : Option String) : String :=
  pyStrip ((splitOnChar ',' (emails.getD "")).headD "")

/-- Python `s[:n]` on strings. -/
def pyTake (s : String) (n : Nat) : String := (s.data.take n).asString

/-- Python `f"{n/d:.1f}"` for the follower-count abbreviation, implemented
with exact integer arithmetic and round-half-up.  CPython formats the
binary float `n/d`, whose tie behaviour can differ in the last digit; no
claim depends on this string. -/
def fmtOneDec (n d : Int) : String :=
  let q := (10 * n + d / 2) / d
  toString (q / 10) ++ "." ++ toString (q % 10)

/-- The `{followers}` abbreviation of `generate_email_content`. -/
def followerStr (followers : Int) : String :=
  if 1000000 ≤ followers then fmtOneDec followers 1000000 ++ "M"
  else if 1000 ≤ followers then fmtOneDec followers 1000 ++ "K"
  else toString followers

/-- Result of the email composers; `recipient` models the source dict key
named `to` (a Lean keyword). -/
structure EmailContent where
  subject : String
  body : String
  recipient : String
deriving DecidableEq

/-- Speedrun-classic titles scanned in `last_game_played`. -/
def speedrun_games : List String := ["celeste", "meat boy", "hollow knight", "cuphead", "ori"]

/-- Co-op markers used for the feature hook. -/
def coop_words_hook : List String := ["co-op", "coop", "multiplayer", "local", "4 player"]

/-- Co-op markers used for the subject line. -/
def coop_words_subject : List String := ["co-op", "coop", "multiplayer"]

/-- Translation of `gmail_draft_generator.generate_email_content`. -/
def generate_email_content (influencer : Influencer) (steam_key : String) : EmailContent :=
  let name := pyOrStr influencer.display_name (influencer.username.getD "there")
  let platform := influencer.platform.getD "YouTube"
  let followers := influencer.followers.getD 0
  let last_video := influencer.last_video_title.getD "recent content"
  let last_game := influencer.last_game_played.getD ""
  let follower_str := followerStr followers
  let lastGameLower := pyLowerS last_game
  let lastVideoLower := pyLowerS last_video
  let opening_line :=
    if last_game ≠ "" ∧ speedrun_games.any (fun g => pyIn g lastGameLower) then
      "I saw you recently played " ++ last_game
        ++ " - clearly you appreciate tight, skill-based platformers!"
    else if last_video ≠ "" ∧ pyIn "speedrun" lastVideoLower then
      "I loved your speedrun content in \"" ++ pyTake last_video 45
        ++ (if 45 < last_video.length then "..." else "")
        ++ "\" - you" ++ ap ++ "re going to love this game!"
    else if last_game ≠ "" then
      "I saw you recently played " ++ last_game
        ++ ", and thought you might enjoy something a bit different!"
    else if last_video ≠ "" then
      "I loved your recent video \"" ++ pyTake last_video 50
        ++ (if 50 < last_video.length then "..." else "")
        ++ "\" - your " ++ follower_str
        ++ " community clearly appreciates great gaming content!"
    else
      "Your " ++ follower_str ++ " community clearly appreciates great gaming content!"
  let is_tiktok_instagram := pyLowerS platform = "instagram" ∨ pyLowerS platform = "tiktok"
  let feature_hook :=
    if pyIn "speedrun" lastVideoLower || pyIn "speed" lastVideoLower then
      "The game was designed with speedrunners in mind - every level has leaderboards and the movement system rewards mastery. Plus, it"
        ++ ap ++ "s mouse-controlled, which adds a unique skill ceiling!"
    else if coop_words_hook.any (fun w => pyIn w lastVideoLower) then
      "The 4-player local co-op is perfect for collaborative content - the chaos of coordinating mouse movements with friends is hilarious and challenging!"
    else if is_tiktok_instagram then
      "The art style and animations have been killing it on social media (check our Instagram/TikTok if you"
        ++ ap ++ "re curious!) - very satisfying movement and visual feedback."
    else
      "It" ++ ap ++ "s got that " ++ ap ++ "one more try" ++ ap
        ++ " addictiveness that makes for great content - tight controls, leaderboards, and surprising depth despite the simple mouse controls."
  let subject :=
    if pyIn "speedrun" lastVideoLower then
      "Speedrunner" ++ ap ++ "s dream? " ++ GAME_NAME ++ " key for you"
    else if coop_words_subject.any (fun w => pyIn w lastVideoLower) then
      "4-player chaos: " ++ GAME_NAME ++ " key inside"
    else
      "Steam key: " ++ GAME_NAME ++ " (mouse-controlled platformer)"
  let bodyA :=
    "Hi " ++ name ++ ",\n\n" ++ opening_line ++ "\n\nI"
      ++ ap ++ "m " ++ YOUR_NAME ++ " from " ++ YOUR_STUDIO
      ++ ", and I" ++ ap ++ "ve been developing " ++ GAME_NAME
      ++ " - a fast-paced 2D platformer that" ++ ap
      ++ "s fully playable with just a mouse (gamepad support too!). It launches on Steam on "
      ++ STEAM_RELEASE_DATE ++ ".\n\n" ++ feature_hook ++ "\n\nHere"
      ++ ap ++ "s what makes it special:\n• Mouse-only controls (surprisingly challenging and satisfying!)\n• Built for speedrunning with leaderboards on every level\n• 4-player local co-op (perfect for couch gaming content!)\n• Infinite roguelite mode with procedurally generated levels\n• Eye-catching art style that performs great on social media\n\nI"
      ++ ap ++ "d love for you to check it out before launch. Here"
      ++ ap ++ "s your personal Steam key:\n\n🔑 "
  let bodyB :=
    "\n\nNo pressure whatsoever - if you enjoy it and want to share it with your audience, that would be incredible. If it"
      ++ ap ++ "s not your thing, no worries at all! I genuinely appreciate any feedback either way.\n\nWant to see it in action first?\nSteam Page: "
      ++ STEAM_PAGE ++ "\nPress Kit (trailers, screenshots, GIFs): " ++ PRESS_KIT
      ++ "\n\nOur socials if you want a preview of the visual style:\nInstagram: "
      ++ INSTAGRAM ++ "\nTikTok: " ++ TIKTOK
      ++ "\n\nHappy to answer any questions or provide additional info/assets!\n\nBest,\n"
      ++ YOUR_NAME ++ "\n" ++ YOUR_STUDIO ++ "\n\nP.S. - If you"
      ++ ap ++ "re into speedrunning, I" ++ ap
      ++ "d be really curious to see what times you can get on the leaderboards. The movement tech has some surprising depth once you master it!"
  let body := bodyA ++ steam_key ++ bodyB
  ⟨subject, body, influencer.primary_email.getD (firstEmailOf influencer.emails)⟩

/-! ## gmail_draft_generator.load_steam_keys

The key pool file is modelled by its list of lines.  `csv.reader` (default
dialect: delimiter `,`, quote character `"`, `doublequote=True`,
`skipinitialspace=False`, non-strict) is modelled per record line by the
state machine below, mirroring CPython's field parser: a field starting
with `"` is quoted and its commas are literal, `""` inside a quoted field
is an escaped quote, characters after a closing quote continue the field
unquoted, and quotes not at the start of a field are literal.  A blank
line yields the empty row.  One modelling boundary: a quoted field left
open at the end of a line is closed there, whereas `csv.reader` would
continue it onto the next physical line; the key-pool claim quantifies
over quote-free rows, which never reach that corner. -/

/-- Parser states of CPython's `csv.reader` field scanner. -/
inductive CsvState where
  | startField
  | inField
  | inQuoted
  | quoteInQuoted
deriving DecidableEq

/-- The `csv.reader` field scanner on one record line: `acc` holds the
current field reversed. -/
def csvAux : CsvState → List Char → List Char → List (List Char)
  | _, acc, [] => [acc.reverse]
  | .startField, acc, c :: rest =>
    if c = '"' then csvAux .inQuoted acc rest
    else if c = ',' then acc.reverse :: csvAux .startField [] rest
    else csvAux .inField (c :: acc) rest
  | .inField, acc, c :: rest =>
    if c = ',' then acc.reverse :: csvAux .startField [] rest
    else csvAux .inField (c :: acc) rest
  | .inQuoted, acc, c :: rest =>
    if c = '"' then csvAux .quoteInQuoted acc rest
    else csvAux .inQuoted (c :: acc) rest
  | .quoteInQuoted, acc, c :: rest =>
    if c = '"' then csvAux .inQuoted ('"' :: acc) rest
    else if c = ',' then acc.reverse :: csvAux .startField [] rest
    else csvAux .inField (c :: acc) rest

/-- One `csv.reader` row. -/
def rowOf (l : String) : List String :=
  if l = "" then [] else (csvAux .startField [] l.data).map List.asString

/-- Translation of `gmail_draft_generator.load_steam_keys`.  When the first
(stripped) line contains a comma or a tab the file is parsed as CSV: the
header picks the first column whose name contains `key` case-insensitively;
if there is no such column the reader is rewound (`f.seek(0)`), so the
header line is processed as data with column 0.  Otherwise the file is
plain text, one key per line.  Either way a candidate is stripped and kept
only when nonempty and longer than 10 characters. -/
def load_steam_keys (lines : List String) : List String :=
  let first_line := pyStrip (lines.headD "")
  if first_line.data.any (fun c => c == ',' || c == '\t') then
    let rows := lines.map rowOf
    let key_column? :=
      match rows.head? with
      | some hd => hd.findIdx? (fun col => pyIn "key" (pyLowerS col))
      | none => none
    let key_column := key_column?.getD 0
    let data := match key_column? with
      | some _ => rows.tail
      | none => rows
    data.filterMap (fun row =>
      if row ≠ [] ∧ key_column < row.length then
        let key := pyStrip (row.getD key_column "")
        if key ≠ "" ∧ 10 < key.length then some key else none
      else none)
  else
    lines.filterMap (fun line =>
      let key := pyStrip line
      if key ≠ "" ∧ 10 < key.length then some key else none)

/-! ## The assignment ledger -/

/-- One ledger entry (value of the `key_assignments` JSON object).  The
optional fields may be absent from an entry; `sent`, `responded` and
`draft_created` are read with a `False` default by the source, so they are
plain booleans. -/
structure Assignment where
  key : String
  influencer : Option String
  platform : Option String
  followers : Option Int
  assigned_date : String
  sent : Bool
  sent_date : Option String
  responded : Bool
  draft_created : Bool
deriving DecidableEq

/-- The ledger: a Python dict keyed by recipient address, in insertion
order, modelled as an association list (keys distinct in actual use). -/
abbrev Ledger := List (String × Assignment)

/-- Translation of `gmail_draft_generator.mark_as_sent` (the pure part:
the ledger is passed in and returned instead of round-tripping through
`key_assignments.json`; `now` stands for `datetime.now().isoformat()`).
Each listed address present in the ledger gets `sent := true` and a fresh
`sent_date`; absent addresses are skipped. -/
def mark_as_sent (now : String) (email_addresses : List String) (assignments : Ledger) :
    Ledger :=
  email_addresses.foldl
    (fun acc email =>
      if acc.any (fun e => e.1 = email) then
        acc.map (fun e => if e.1 = email then (e.1, { e.2 with sent := true, sent_date := some now }) else e)
      else acc)
    assignments

/-! ## gmail_draft_generator.generate_campaign -/

/-- Outcome of a campaign run.  `noKeys` is the early `return` when the
pool is empty (Python returns `None`); `indexError` is the uncaught
`IndexError` raised by `steam_keys[key_index]` when the index runs past the
pool (unreachable under the guards of the source, but part of the model
because the source indexes unconditionally). -/
inductive CampaignResult where
  | noKeys
  | indexError
  | ok (ledger : Ledger)
deriving DecidableEq

/-- Loop state of the draft-generation loop. -/
structure CampSt where
  assignments : Ledger
  key_index : Nat
  drafts_created : Nat
deriving DecidableEq

/-- Python `lst[:n]` where `n` may be negative (a negative `n` drops the
last `|n|` elements). -/
def pySlice {α : Type} (l : List α) (n : Int) : List α :=
  if 0 ≤ n then l.take n.toNat else l.take (l.length - n.natAbs)

/-- The body of `for i, influencer in enumerate(valid_influencers[:keys_needed], 1)`:
skip influencers that already hold a key, otherwise draw `steam_keys[key_index]`,
build the email, insert the ledger entry, and (when Gmail is active) mark
`draft_created` on success.  `draft_ok` models the outcome of `create_draft`
for a given address; the generated email files are not part of the result. -/
def assignLoop (steam_keys : List String) (gmail : Bool) (draft_ok : String → Bool)
    (now : String) : List (Influencer × String) → CampSt → Option CampSt
  | [], st => some st
  | (influencer, email_addr) :: rest, st =>
    if st.assignments.any (fun e => e.1 = email_addr) then
      assignLoop steam_keys gmail draft_ok now rest st
    else
      match steam_keys[st.key_index]? with
      | none => none
      | some steam_key =>
        let _email_content := generate_email_content influencer steam_key
        let success := gmail && draft_ok email_addr
        let entry : Assignment :=
          { key := steam_key
            influencer := influencer.username
            platform := influencer.platform
            followers := influencer.followers
            assigned_date := now
            sent := false
            sent_date := none
            responded := false
            draft_created := success }
        assignLoop steam_keys gmail draft_ok now rest
          { assignments := st.assignments ++ [(email_addr, entry)]
            key_index := st.key_index + 1
            drafts_created := st.drafts_created + (if success then 1 else 0) }

/-- Translation of `gmail_draft_generator.generate_campaign` (the pure
key-assignment core: CSV loading, printing and file output are dropped;
`influencers` is the parsed CSV, `steam_keys` the parsed pool,
`key_assignments` the loaded ledger).  `create_gmail_drafts` and
`gmail_available` model the `--no-gmail` flag and `get_gmail_service()`
succeeding; `draft_ok` models per-draft API success. -/
def generate_campaign (influencers : List Influencer) (steam_keys : List String)
    (key_assignments : Ledger) (max_drafts : Option Int)
    (create_gmail_drafts gmail_available : Bool) (draft_ok : String → Bool)
    (now : String) : CampaignResult :=
  let valid_influencers := influencers.filterMap (fun inf =>
    let emails := inf.emails.getD "Not found"
    if emails ≠ "" ∧ emails ≠ "Not found" ∧ pyIn "@" emails then
      let email := pyStrip ((splitOnChar ',' emails).headD "")
      some ({ inf with primary_email := some email }, email)
    else none)
  if steam_keys.length = 0 then CampaignResult.noKeys
  else
    let keys_needed : Int :=
      match max_drafts with
      | some m => if m ≠ 0 then min (valid_influencers.length : Int) m else valid_influencers.length
      | none => valid_influencers.length
    let keys_available : Int := (steam_keys.length : Int) - key_assignments.length
    let keys_needed := if keys_available < keys_needed then keys_available else keys_needed
    let valid_influencers :=
      match max_drafts with
      | some m => if m ≠ 0 ∧ m < (valid_influencers.length : Int)
          then pySlice valid_influencers m else valid_influencers
      | none => valid_influencers
    let gmail := create_gmail_drafts && gmail_available
    match assignLoop steam_keys gmail draft_ok now (pySlice valid_influencers keys_needed)
      { assignments := key_assignments, key_index := key_assignments.length,
        drafts_created := 0 } with
    | none => CampaignResult.indexError
    | some st => CampaignResult.ok st.assignments

/-! ## Helper lemmas -/

theorem isPrefOf_append (n b : List Char) : isPrefOf n (n ++ b) = true := by
  induction n with
  | nil => rfl
  | cons a as ih => simp [isPrefOf, ih]

theorem containsSub_nil_needle (b : List Char) : containsSub [] b = true := by
  cases b <;> simp [containsSub, isPrefOf]

theorem containsSub_middle (n a b : List Char) : containsSub n (a ++ n ++ b) = true := by
  induction a with
  | nil =>
    cases n with
    | nil => simpa using containsSub_nil_needle b
    | cons c cs =>
      have h := isPrefOf_append (c :: cs) b
      simp only [List.cons_append] at h
      simp [containsSub, h]
  | cons x xs ih => simpa [containsSub] using Or.inr ih

theorem pyIn_sandwich (a k b : String) : pyIn k (a ++ k ++ b) = true := by
  simp only [pyIn, String.data_append]
  exact containsSub_middle k.data a.data b.data

/-! ## C10: the Steam key appears verbatim in the generated body -/

/-- C10: for every influencer record and every Steam key string, the body
returned by `generate_email_content` contains that Steam key verbatim as a
substring (Python `steam_key in body`). -/
theorem generate_email_content_contains_key (influencer : Influencer) (steam_key : String) :
    pyIn steam_key (generate_email_content influencer steam_key).body = true := by
  simp only [generate_email_content]
  exact pyIn_sandwich _ _ _

/-! ## C9: frame property of mark_as_sent -/

/-- C9: `mark_as_sent` maps the ledger pointwise: an entry whose address is
listed gets exactly `sent := true` and a fresh `sent_date` (every other
field untouched), every other entry is returned unchanged, and listed
addresses absent from the ledger have no effect.  Order and length of the
ledger are preserved. -/
theorem mark_as_sent_frame (now : String) (email_addresses : List String) (ledger : Ledger) :
    mark_as_sent now email_addresses ledger =
      ledger.map (fun e =>
        if e.1 ∈ email_addresses then
          (e.1, { e.2 with sent := true, sent_date := some now })
        else e) := by
  induction email_addresses generalizing ledger with
  | nil => simp [mark_as_sent]
  | cons a as ih =>
    have hstep :
        (if ledger.any (fun e => e.1 = a) then
            ledger.map (fun e =>
              if e.1 = a then (e.1, { e.2 with sent := true, sent_date := some now }) else e)
          else ledger)
          = ledger.map (fun e =>
              if e.1 = a then (e.1, { e.2 with sent := true, sent_date := some now }) else e) := by
      split
      · rfl
      · rename_i hany
        have hno : ∀ e ∈ ledger, ¬ e.1 = a := by
          intro e he hc
          exact hany (List.any_eq_true.mpr ⟨e, he, by simp [hc]⟩)
        symm
        calc ledger.map (fun e =>
              if e.1 = a then (e.1, { e.2 with sent := true, sent_date := some now }) else e)
            = ledger.map id := List.map_congr_left (fun e he => by simp [hno e he])
          _ = ledger := List.map_id ledger
    have hunf : mark_as_sent now (a :: as) ledger
        = mark_as_sent now as
            (ledger.map (fun e =>
              if e.1 = a then (e.1, { e.2 with sent := true, sent_date := some now }) else e)) := by
      simp only [mark_as_sent, List.foldl_cons]
      rw [hstep]
    rw [hunf, ih, List.map_map]
    refine List.map_congr_left ?_
    intro e _
    by_cases h1 : e.1 = a <;> by_cases h2 : e.1 ∈ as <;>
      simp [Function.comp, h1, h2, List.mem_cons]

/-! ## C7: is_gaming_channel decision rule -/

/-- C7: `is_gaming_channel` accepts exactly when the doubled developer
score is at most 1, the off-topic score does not strictly exceed the
creator score (ties accept), and the creator score is at least 2 —
evaluated in that order, matching the early-reject structure of the
source. -/
theorem is_gaming_channel_iff (description : String) (video_titles : List String) :
    is_gaming_channel description video_titles = true ↔
      dev_score description video_titles ≤ 1 ∧
        non_gaming_score description video_titles ≤ creator_score description video_titles ∧
        2 ≤ creator_score description video_titles := by
  unfold is_gaming_channel
  split_ifs with h1 h2 <;> simp_all

/-! ## C2 and C3: response-likelihood score structure -/

theorem crl_ite_sub (c : Prop) [Decidable c] (a x y : Int) :
    (if c then a + x else a - y) = a + (if c then x else -y) := by
  split_ifs <;> ring

theorem crl_ite_keep (c : Prop) [Decidable c] (a x : Int) :
    (if c then a + x else a) = a + (if c then x else 0) := by
  split_ifs <;> ring

theorem crl_ite_chain3 (c1 c2 c3 : Prop) [Decidable c1] [Decidable c2] [Decidable c3]
    (a x1 x2 y3 : Int) :
    (if c1 then a + x1 else if c2 then a + x2 else if c3 then a - y3 else a)
      = a + (if c1 then x1 else if c2 then x2 else if c3 then -y3 else 0) := by
  split_ifs <;> ring

theorem crl_ite_chain2 (c1 c2 : Prop) [Decidable c1] [Decidable c2] (a x1 y2 : Int) :
    (if c1 then a + x1 else if c2 then a - y2 else a)
      = a + (if c1 then x1 else if c2 then -y2 else 0) := by
  split_ifs <;> ring

/-- C2 (amended): the sequential score accumulation of
`calculate_response_likelihood` equals the clamped sum of the seven
independent adjustments, with the upload-frequency band spelled out: +10
when `0 < f ≤ 3`; otherwise +5 whenever `f ≤ 7` — which includes `f = 0`
("unknown") and any negative `f`; −10 when `f > 30`; and 0 otherwise. -/
theorem calculate_response_likelihood_upload_band (d : RespInput) :
    (calculate_response_likelihood d).score =
      max 0 (min 100 (50 + emailAdj d + bizAdj d + contactAdj d + sentAdj d
        + (if 0 < d.upload_frequency_days ∧ d.upload_frequency_days ≤ 3 then 10
           else if d.upload_frequency_days ≤ 7 then 5
           else if 30 < d.upload_frequency_days then (-10 : Int)
           else 0)
        + engAdj d + folAdj d)) := by
  simp only [calculate_response_likelihood]
  rw [crl_ite_chain2, crl_ite_chain3, crl_ite_chain3, crl_ite_chain3,
    crl_ite_keep, crl_ite_keep, crl_ite_sub]
  simp only [emailAdj, bizAdj, contactAdj, sentAdj, engAdj, folAdj]

/-- The record used by the spec as the response-likelihood base case: no
extracted email, no business terms, one contact method, neutral sentiment,
zero engagement, 50000 followers, with upload frequency `f`. -/
def uploadProbe (f : Rat) : RespInput :=
  { email_count := 0
    has_business_terms := "No"
    twitter := "handle"
    discord := ""
    instagram := ""
    indie_sentiment := "neutral"
    upload_frequency_days := f
    engagement_rate_numeric := 0
    followers := 50000 }

/-- C2 counterexample: the claim puts `upload_frequency_days = 0` outside
all three bands (adjustment 0), which would give this record the same score
as the otherwise-identical record with `upload_frequency_days = 10`
(also claimed adjustment 0).  The code instead scores the `0` record 50
(the `elif upload_freq <= 7` branch fires, +5) and the `10` record 45. -/
theorem calculate_response_likelihood_upload_zero_counterexample :
    (calculate_response_likelihood (uploadProbe 0)).score = 50 ∧
      (calculate_response_likelihood (uploadProbe 10)).score = 45 := by
  decide

/-- C3 (amended): on the base-case record (no email, no business terms, one
contact method, neutral sentiment, unknown upload frequency 0, zero
engagement, 50000 followers) the code returns score 50 — the unknown upload
frequency falls into the `≤ 7` band and contributes +5 — and the category
is "Medium". -/
theorem calculate_response_likelihood_base_case :
    (calculate_response_likelihood (uploadProbe 0)).score = 50 ∧
      (calculate_response_likelihood (uploadProbe 0)).likelihood = "Medium" := by
  decide

/-- C3 counterexample: the claimed score 45 for the base-case record is
wrong; the code produces 50. -/
theorem calculate_response_likelihood_base_case_counterexample :
    ¬ (calculate_response_likelihood (uploadProbe 0)).score = 45 := by
  decide

/-! ## C6: sentiment score and category -/

theorem round2_half (j : Int) : round2 ((j : Rat) / 2) = (j : Rat) / 2 := by
  unfold round2
  have h1 : (j : Rat) / 2 * 100 + 1 / 2 = ((50 * j : Int) : Rat) + 1 / 2 := by
    push_cast
    ring
  rw [h1]
  have hf : (Rat.floor (((50 * j : Int) : Rat) + 1 / 2) : Int)
      = ⌊((50 * j : Int) : Rat) + 1 / 2⌋ := by
    rw [Rat.floor_def, Rat.floor_def']
  rw [hf, Int.floor_int_add]
  have h2 : ⌊(1 / 2 : Rat)⌋ = 0 := by norm_num
  rw [h2]
  push_cast
  ring

theorem half_min (a b : Int) :
    min ((a : Rat) / 2) ((b : Rat) / 2) = ((min a b : Int) : Rat) / 2 := by
  rcases le_total a b with hab | hab
  · rw [min_eq_left ((div_le_div_iff_of_pos_right (by norm_num : (0:Rat) < 2)).mpr
        (Int.cast_le.mpr hab)), min_eq_left hab]
  · rw [min_eq_right ((div_le_div_iff_of_pos_right (by norm_num : (0:Rat) < 2)).mpr
        (Int.cast_le.mpr hab)), min_eq_right hab]

theorem half_max (a b : Int) :
    max ((a : Rat) / 2) ((b : Rat) / 2) = ((max a b : Int) : Rat) / 2 := by
  rcases le_total a b with hab | hab
  · rw [max_eq_right ((div_le_div_iff_of_pos_right (by norm_num : (0:Rat) < 2)).mpr
        (Int.cast_le.mpr hab)), max_eq_right hab]
  · rw [max_eq_left ((div_le_div_iff_of_pos_right (by norm_num : (0:Rat) < 2)).mpr
        (Int.cast_le.mpr hab)), max_eq_left hab]

theorem round2_clamp (p n u : Nat) :
    round2 (max (-10) (min 10
        (((p * 2 : Int) : Rat) - ((n * 3 : Int) : Rat) + (u : Rat) * (1 / 2))))
      = max (-10) (min 10
        (((p * 2 : Int) : Rat) - ((n * 3 : Int) : Rat) + (u : Rat) * (1 / 2))) := by
  have hv : ((p * 2 : Int) : Rat) - ((n * 3 : Int) : Rat) + (u : Rat) * (1 / 2)
      = ((4 * p - 6 * n + u : Int) : Rat) / 2 := by
    push_cast
    ring
  have h10 : (10 : Rat) = ((20 : Int) : Rat) / 2 := by norm_num
  have hm10 : (-10 : Rat) = ((-20 : Int) : Rat) / 2 := by norm_num
  rw [hv, hm10, h10, half_min, half_max, round2_half]

/-- C6: for every non-empty text, the returned sentiment score equals
`2·positive − 3·negative + 0.5·neutral` matches clamped to `[-10, 10]`
(the final `round(score, 2)` is the identity on these half-integer values),
and the category is `very_positive` iff the score is at least 3,
`positive` iff it lies in `[1, 3)`, `neutral` iff in `[-1, 1)`,
`negative` iff in `[-3, -1)`, and `very_negative` iff below -3. -/
theorem analyze_sentiment_spec (text : String) (h : text ≠ "") :
    ((analyze_sentiment text).score =
        max (-10) (min 10
          (2 * (positive_keywords.countP (fun k => pyIn k (pyLowerS text)) : Rat)
            - 3 * (negative_keywords.countP (fun k => pyIn k (pyLowerS text)) : Rat)
            + (1 / 2) * (neutral_keywords.countP (fun k => pyIn k (pyLowerS text)) : Rat)))) ∧
      ((analyze_sentiment text).sentiment = "very_positive" ↔ 3 ≤ (analyze_sentiment text).score) ∧
      ((analyze_sentiment text).sentiment = "positive" ↔
        1 ≤ (analyze_sentiment text).score ∧ (analyze_sentiment text).score < 3) ∧
      ((analyze_sentiment text).sentiment = "neutral" ↔
        -1 ≤ (analyze_sentiment text).score ∧ (analyze_sentiment text).score < 1) ∧
      ((analyze_sentiment text).sentiment = "negative" ↔
        -3 ≤ (analyze_sentiment text).score ∧ (analyze_sentiment text).score < -1) ∧
      ((analyze_sentiment text).sentiment = "very_negative" ↔
        (analyze_sentiment text).score < -3) := by
  simp only [analyze_sentiment, if_neg h]
  rw [round2_clamp]
  rw [show ((positive_keywords.countP (fun k => pyIn k (pyLowerS text)) * 2 : Int) : Rat)
        - ((negative_keywords.countP (fun k => pyIn k (pyLowerS text)) * 3 : Int) : Rat)
        + (neutral_keywords.countP (fun k => pyIn k (pyLowerS text)) : Rat) * (1 / 2)
      = 2 * (positive_keywords.countP (fun k => pyIn k (pyLowerS text)) : Rat)
        - 3 * (negative_keywords.countP (fun k => pyIn k (pyLowerS text)) : Rat)
        + (1 / 2) * (neutral_keywords.countP (fun k => pyIn k (pyLowerS text)) : Rat)
      from by push_cast; ring]
  generalize (max (-10) (min 10
      (2 * (positive_keywords.countP (fun k => pyIn k (pyLowerS text)) : Rat)
        - 3 * (negative_keywords.countP (fun k => pyIn k (pyLowerS text)) : Rat)
        + (1 / 2) * (neutral_keywords.countP (fun k => pyIn k (pyLowerS text)) : Rat))) : Rat) = s
  refine ⟨rfl, ?_, ?_, ?_, ?_, ?_⟩ <;>
    split_ifs with h1 h2 h3 h4 <;>
      simp_all +decide <;>
        first
          | linarith
          | (rintro ⟨hx, hy⟩; linarith)
          | (intro hx; linarith)

/-- Witness for C6: the theorem applied to the nonempty text `"indie"`. -/
theorem analyze_sentiment_spec_witness :
    (analyze_sentiment "indie").score = max (-10) (min 10
      (2 * (positive_keywords.countP (fun k => pyIn k (pyLowerS "indie")) : Rat)
        - 3 * (negative_keywords.countP (fun k => pyIn k (pyLowerS "indie")) : Rat)
        + (1 / 2) * (neutral_keywords.countP (fun k => pyIn k (pyLowerS "indie")) : Rat))) :=
  (analyze_sentiment_spec "indie" (by decide)).1

/-! ## C5: extract_emails filtering and deduplication -/

/-- C5: for every input text, no address returned by `extract_emails`
contains (case-insensitively) any placeholder / noreply marker of the
exclusion list, and the returned list holds no duplicate address. -/
theorem extract_emails_filtered (text : String) :
    (extract_emails text).Nodup ∧
      ∀ e ∈ extract_emails text, ∀ sk ∈ skip_list, pyIn sk (pyLowerS e) = false := by
  simp only [extract_emails]
  split_ifs with h
  · simp
  · refine ⟨List.nodup_dedup _, ?_⟩
    intro e he sk hsk
    rw [List.mem_dedup, List.mem_filter] at he
    have hp := he.2
    rw [Bool.not_eq_eq_eq_not, Bool.not_true, List.any_eq_false] at hp
    exact Bool.eq_false_iff.mpr (fun hc => hp sk hsk (by simpa using hc))

/-- Witness for C5: on the text `"bob@site.org noreply@x.com"` the returned
address `"bob@site.org"` does not contain the marker `"noreply"`. -/
theorem extract_emails_filtered_witness :
    pyIn "noreply" (pyLowerS "bob@site.org") = false :=
  (extract_emails_filtered "bob@site.org noreply@x.com").2 "bob@site.org" (by decide)
    "noreply" (by decide)

/-! ## C4: obfuscation markers -/

/-- C4 (amended): before matching, `extract_emails` normalizes exactly the
markers `[at]`, `(at)`, `" at "`, `[AT]`, `(AT)` and the spaced `" @ "` to
`@`, and `[dot]`, `(dot)`, `" dot "`, `[DOT]`, `(DOT)` and the spaced
`" . "` to `.` — the all-lowercase and all-uppercase bracketed forms and
the lowercase spaced words only, not every letter-casing. -/
theorem extract_emails_exact_markers :
    ((["[at]", "(at)", " at ", "[AT]", "(AT)", " @ "].all
        (fun m => extract_emails ("john" ++ m ++ "gmail.org") == ["john@gmail.org"])) = true) ∧
      ((["[dot]", "(dot)", " dot ", "[DOT]", "(DOT)", " . "].all
        (fun m => extract_emails ("john@gmail" ++ m ++ "org") == ["john@gmail.org"])) = true) := by
  decide

/-- C4 counterexample: the mixed-casing marker `[At]` is not normalized —
`extract_emails "john[At]gmail.org"` finds nothing, while the lowercase
marker on the same text yields the address, so normalization is not
case-insensitive. -/
theorem extract_emails_mixed_case_counterexample :
    extract_emails "john[At]gmail.org" = [] ∧
      extract_emails "john[at]gmail.org" = ["john@gmail.org"] := by
  decide

/-! ## C8: key pool parsing -/

theorem data_append_comma (a b : String) :
    (a ++ "," ++ b).data = a.data ++ ',' :: b.data := by
  simp [String.data_append]

theorem append_comma_ne_empty (a b : String) : ¬ (a ++ "," ++ b) = "" := by
  intro h
  have := congrArg String.data h
  rw [data_append_comma] at this
  simp at this

theorem csvAux_inField_no_comma (l acc : List Char) (h : ',' ∉ l) :
    csvAux .inField acc l = [acc.reverse ++ l] := by
  induction l generalizing acc with
  | nil => simp [csvAux]
  | cons c cs ih =>
    have hc : ¬ c = ',' := fun e => h (e ▸ List.mem_cons_self c cs)
    simp [csvAux, hc, ih (c :: acc) (fun hm => h (List.mem_cons_of_mem _ hm))]

theorem csvAux_inField_mid (a b acc : List Char) (ha : ',' ∉ a) :
    csvAux .inField acc (a ++ ',' :: b) = (acc.reverse ++ a) :: csvAux .startField [] b := by
  induction a generalizing acc with
  | nil => simp [csvAux]
  | cons x xs ih =>
    have hx : ¬ x = ',' := fun e => ha (e ▸ List.mem_cons_self x xs)
    simp [csvAux, hx, ih (x :: acc) (fun hm => ha (List.mem_cons_of_mem _ hm))]

theorem csvAux_start_single (l : List Char) (h : ∀ c ∈ l, ¬ (c = ',' ∨ c = '"')) :
    csvAux .startField [] l = [l] := by
  cases l with
  | nil => simp [csvAux]
  | cons c cs =>
    have hc := h c (List.mem_cons_self c cs)
    have hcs : ',' ∉ cs := fun hm => h ',' (List.mem_cons_of_mem _ hm) (Or.inl rfl)
    have h1 : ¬ c = '"' := fun e => hc (Or.inr e)
    have h2 : ¬ c = ',' := fun e => hc (Or.inl e)
    simp [csvAux, h1, h2, csvAux_inField_no_comma cs [c] hcs]

theorem csvAux_start_mid (a b : List Char) (ha : ∀ c ∈ a, ¬ (c = ',' ∨ c = '"')) :
    csvAux .startField [] (a ++ ',' :: b) = a :: csvAux .startField [] b := by
  cases a with
  | nil => simp [csvAux]
  | cons x xs =>
    have hx := ha x (List.mem_cons_self x xs)
    have hxs : ',' ∉ xs := fun hm => ha ',' (List.mem_cons_of_mem _ hm) (Or.inl rfl)
    have h1 : ¬ x = '"' := fun e => hx (Or.inr e)
    have h2 : ¬ x = ',' := fun e => hx (Or.inl e)
    simp only [List.cons_append]
    rw [show csvAux .startField [] (x :: (xs ++ ',' :: b))
        = csvAux .inField [x] (xs ++ ',' :: b) from by simp [csvAux, h1, h2]]
    rw [csvAux_inField_mid xs b [x] hxs]
    simp

theorem rowOf_pair (a b : String) (ha : ∀ c ∈ a.data, ¬ (c = ',' ∨ c = '"'))
    (hb : ∀ c ∈ b.data, ¬ (c = ',' ∨ c = '"')) :
    rowOf (a ++ "," ++ b) = [a, b] := by
  unfold rowOf
  rw [if_neg (append_comma_ne_empty a b), data_append_comma,
    csvAux_start_mid a.data b.data ha, csvAux_start_single b.data hb]
  simp only [List.map_cons, List.map_nil]
  rw [show List.asString a.data = a from String.asString_toList a,
    show List.asString b.data = b from String.asString_toList b]

theorem filterMap_plain (l : List String) :
    (l.filterMap (fun line =>
        if pyStrip line ≠ "" ∧ 10 < (pyStrip line).length then some (pyStrip line) else none))
      = (l.filter (fun t => 10 < (pyStrip t).length)).map pyStrip := by
  induction l with
  | nil => rfl
  | cons c cs ih =>
    by_cases hl : 10 < (pyStrip c).length
    · have hne : pyStrip c ≠ "" := by
        intro he
        rw [he] at hl
        simp at hl
      simp [List.filterMap_cons, List.filter_cons, hl, hne, ih]
    · simp [List.filterMap_cons, List.filter_cons, hl, ih]

/-- C8: key pool parsing.  Plain-text branch (no comma or tab in the first
stripped line): one key per line, keeping exactly the lines whose stripped
form is longer than 10 characters (blank lines strip to length 0 and are
skipped); in particular a file of trim-stable 15-character tokens parses to
exactly those tokens.  CSV branch: with header `"Name,SteamKey"` the column
whose lowercased name contains `"key"` is column 1, and the same length
filter applies to that column, so plain (comma- and quote-free) rows of
15-character keys parse to exactly the second components. -/
theorem load_steam_keys_spec (toks : List String) (pairs : List (String × String))
    (hfirst : ∀ c ∈ (pyStrip (toks.headD "")).data, ¬ (c = ',' ∨ c = '\t'))
    (hpairs : ∀ p ∈ pairs, (∀ c ∈ p.1.data, ¬ (c = ',' ∨ c = '"'))
      ∧ (∀ c ∈ p.2.data, ¬ (c = ',' ∨ c = '"'))
      ∧ pyStrip p.2 = p.2 ∧ p.2.length = 15) :
    (load_steam_keys toks = (toks.filter (fun t => 10 < (pyStrip t).length)).map pyStrip) ∧
      ((∀ t ∈ toks, pyStrip t = t ∧ t.length = 15) → load_steam_keys toks = toks) ∧
      load_steam_keys ("Name,SteamKey" :: pairs.map (fun p => p.1 ++ "," ++ p.2))
        = pairs.map (fun p => p.2) := by
  have hcond : (pyStrip (toks.headD "")).data.any (fun c => c == ',' || c == '\t') = false := by
    rw [List.any_eq_false]
    intro c hc
    have := hfirst c hc
    simp_all
  have hplain : load_steam_keys toks
      = (toks.filter (fun t => 10 < (pyStrip t).length)).map pyStrip := by
    simp only [load_steam_keys, hcond, Bool.false_eq_true, if_false]
    exact filterMap_plain toks
  refine ⟨hplain, ?_, ?_⟩
  · intro hall
    rw [hplain]
    have hfe : toks.filter (fun t => 10 < (pyStrip t).length) = toks := by
      rw [List.filter_eq_self]
      intro t ht
      have := hall t ht
      rw [this.1, this.2]
      decide
    rw [hfe]
    calc toks.map pyStrip = toks.map id := List.map_congr_left (fun t ht => (hall t ht).1)
      _ = toks := List.map_id toks
  · have hc2 : (pyStrip "Name,SteamKey").data.any (fun c => c == ',' || c == '\t') = true := by
      decide
    have hidx : (rowOf "Name,SteamKey").findIdx? (fun col => pyIn "key" (pyLowerS col))
        = some 1 := by decide
    simp only [load_steam_keys, List.headD_cons, hc2, if_true, List.map_cons, List.head?_cons,
      hidx, List.tail_cons, Option.getD_some]
    rw [List.map_map]
    revert hpairs
    induction pairs with
    | nil => intro _; rfl
    | cons p ps ih =>
      intro hp
      obtain ⟨h1c, h2c, h3s, h4l⟩ := hp p (List.mem_cons_self p ps)
      have hrow : (rowOf ∘ fun p : String × String => p.1 ++ "," ++ p.2) p = [p.1, p.2] := by
        simp only [Function.comp_apply]
        exact rowOf_pair p.1 p.2 h1c h2c
      have hne : ¬ p.2 = "" := fun he => by
        rw [he] at h4l
        simp at h4l
      have hlen : 10 < p.2.length := by omega
      simp only [List.map_cons, List.filterMap_cons, hrow]
      have hg : ([p.1, p.2].getD 1 "") = p.2 := rfl
      rw [hg, h3s]
      have hcond1 : ([p.1, p.2] : List String) ≠ [] ∧ 1 < ([p.1, p.2] : List String).length := by
        simp
      rw [if_pos hcond1, if_pos ⟨hne, hlen⟩]
      exact congrArg (fun l => p.2 :: l) (ih (fun q hq => hp q (List.mem_cons_of_mem _ hq)))

/-- Witness for C8: a two-line plain pool of 15-character tokens and a CSV
pool with header `Name,SteamKey`, both instantiating the theorem. -/
theorem load_steam_keys_spec_witness :
    load_steam_keys ["AAAAABBBBBCCCCC", "DDDDDEEEEEFFFFF"]
        = ["AAAAABBBBBCCCCC", "DDDDDEEEEEFFFFF"] ∧
      load_steam_keys ["Name,SteamKey", "alice,KKKKKLLLLLMMMMM", "bob,NNNNNOOOOOPPPPP"]
        = ["KKKKKLLLLLMMMMM", "NNNNNOOOOOPPPPP"] :=
  ⟨(load_steam_keys_spec ["AAAAABBBBBCCCCC", "DDDDDEEEEEFFFFF"]
      [("alice", "KKKKKLLLLLMMMMM"), ("bob", "NNNNNOOOOOPPPPP")]
      (by decide) (by decide)).2.1 (by decide),
    (load_steam_keys_spec ["AAAAABBBBBCCCCC", "DDDDDEEEEEFFFFF"]
      [("alice", "KKKKKLLLLLMMMMM"), ("bob", "NNNNNOOOOOPPPPP")]
      (by decide) (by decide)).2.2⟩

/-! ## C1: resumed campaigns never re-issue previously assigned keys -/

theorem assignLoop_keys (steam_keys : List String) (gmail : Bool) (draft_ok : String → Bool)
    (now : String) (l : List (Influencer × String)) :
    ∀ st st' : CampSt, assignLoop steam_keys gmail draft_ok now l st = some st' →
      ∃ suffix, st'.assignments = st.assignments ++ suffix ∧
        ∀ e ∈ suffix, ∃ j, st.key_index ≤ j ∧ steam_keys[j]? = some e.2.key := by
  induction l with
  | nil =>
    intro st st' h
    simp only [assignLoop, Option.some.injEq] at h
    exact ⟨[], by simp [← h], by simp⟩
  | cons pe rest ih =>
    obtain ⟨influencer, email⟩ := pe
    intro st st' h
    simp only [assignLoop] at h
    split at h
    · obtain ⟨suf, h1, h2⟩ := ih st st' h
      exact ⟨suf, h1, h2⟩
    · split at h
      · exact absurd h (by simp)
      · rename_i steam_key hget
        obtain ⟨suf, h1, h2⟩ := ih _ st' h
        refine ⟨(email,
            { key := steam_key
              influencer := influencer.username
              platform := influencer.platform
              followers := influencer.followers
              assigned_date := now
              sent := false
              sent_date := none
              responded := false
              draft_created := gmail && draft_ok email }) :: suf, ?_, ?_⟩
        · rw [h1]
          simp
        · intro e he
          rcases List.mem_cons.mp he with he | he
          · exact ⟨st.key_index, le_refl _, by rw [hget, he]⟩
          · obtain ⟨j, hj, hkey⟩ := h2 e he
            exact ⟨j, by simp at hj; omega, hkey⟩

/-- C1 (amended): take a campaign run whose loaded ledger holds exactly `N`
assignments whose keys are, in order, the first `N` keys of the parsed pool
`K`, with the pool unchanged (and, as the counterexample forces, free of
duplicate keys).  Every entry the run adds carries a key drawn from index
`N` onward of `K`, and that key differs from every key already in the
ledger — no previously assigned key is re-issued. -/
theorem generate_campaign_no_reissue (influencers : List Influencer)
    (steam_keys : List String) (ledger : Ledger) (max_drafts : Option Int)
    (create_gmail_drafts gmail_available : Bool) (draft_ok : String → Bool) (now : String)
    (res : Ledger)
    (hN : ledger.map (fun e => e.2.key) = steam_keys.take ledger.length)
    (hnd : steam_keys.Nodup)
    (hres : generate_campaign influencers steam_keys ledger max_drafts
      create_gmail_drafts gmail_available draft_ok now = CampaignResult.ok res) :
    ∀ e ∈ res, e ∉ ledger →
      e.2.key ∈ steam_keys.drop ledger.length ∧
        ∀ e₀ ∈ ledger, e.2.key ≠ e₀.2.key := by
  simp only [generate_campaign] at hres
  split at hres
  · exact absurd hres (by simp)
  · split at hres
    · exact absurd hres (by simp)
    · rename_i st heq
      simp only [CampaignResult.ok.injEq] at hres
      obtain ⟨suffix, h1, h2⟩ := assignLoop_keys _ _ _ _ _ _ _ heq
      simp only at h1
      intro e he hnotled
      have hesuf : e ∈ suffix := by
        rw [← hres, h1] at he
        rcases List.mem_append.mp he with h | h
        · exact absurd h hnotled
        · exact h
      obtain ⟨j, hj, hget⟩ := h2 e hesuf
      simp only at hj
      have hdropget : (steam_keys.drop ledger.length)[j - ledger.length]? = some e.2.key := by
        rw [List.getElem?_drop, show ledger.length + (j - ledger.length) = j from by omega]
        exact hget
      have hdropmem : e.2.key ∈ steam_keys.drop ledger.length := by
        exact List.getElem?_mem hdropget
      refine ⟨hdropmem, ?_⟩
      intro e₀ he₀ hkeq
      have htake : e.2.key ∈ steam_keys.take ledger.length := by
        rw [← hN, hkeq]
        exact List.mem_map_of_mem _ he₀
      have hta : (steam_keys.take ledger.length ++ steam_keys.drop ledger.length).Nodup := by
        rw [List.take_append_drop]
        exact hnd
      exact (List.nodup_append.mp hta).2.2 htake hdropmem

/-- One-entry ledger for the C1 witness: its single key is the first key of
the witness pool. -/
def c1Ledger : Ledger :=
  [("a@b.org",
    { key := "KEY000000001", influencer := some "old", platform := none, followers := none,
      assigned_date := "2020", sent := false, sent_date := none, responded := false,
      draft_created := false })]

/-- Fresh influencer for the C1 witness. -/
def c1Influencer : Influencer :=
  { display_name := none, username := some "u1", platform := none, followers := none,
    last_video_title := none, last_game_played := none, indie_sentiment := none,
    primary_email := none, emails := some "b@c.org" }

/-- Two-key pool for the C1 witness. -/
def c1Keys : List String := ["KEY000000001", "KEY000000002"]

/-- Ledger produced by the C1 witness run. -/
def c1Res : Ledger :=
  c1Ledger ++ [("b@c.org",
    { key := "KEY000000002", influencer := some "u1", platform := none, followers := none,
      assigned_date := "NOW", sent := false, sent_date := none, responded := false,
      draft_created := false })]

/-- Witness for C1: resuming with one persisted assignment and an unchanged
two-key pool hands the new recipient the second key, which is not the
previously assigned one. -/
theorem generate_campaign_no_reissue_witness :
    ("KEY000000002" : String) ∈ c1Keys.drop c1Ledger.length ∧
      ∀ e₀ ∈ c1Ledger, ("KEY000000002" : String) ≠ e₀.2.key := by
  have h := generate_campaign_no_reissue [c1Influencer] c1Keys c1Ledger none false false
    (fun _ => false) "NOW" c1Res (by decide) (by decide) (by decide)
  obtain ⟨ha, hb⟩ := h ("b@c.org",
    { key := "KEY000000002", influencer := some "u1", platform := none, followers := none,
      assigned_date := "NOW", sent := false, sent_date := none, responded := false,
      draft_created := false }) (by decide) (by decide)
  exact ⟨ha, hb⟩

/-- Ledger for the C1 counterexample: one assignment holding the first key
of a pool that repeats the same key string twice. -/
def c1DupLedger : Ledger :=
  [("a@b.org",
    { key := "KEYAAAAAAAAA", influencer := some "old", platform := none, followers := none,
      assigned_date := "2020", sent := false, sent_date := none, responded := false,
      draft_created := false })]

/-- A pool whose two lines carry the same key string. -/
def c1DupKeys : List String := ["KEYAAAAAAAAA", "KEYAAAAAAAAA"]

/-- Result of the C1 counterexample run. -/
def c1DupRes : Ledger :=
  c1DupLedger ++ [("b@c.org",
    { key := "KEYAAAAAAAAA", influencer := some "u1", platform := none, followers := none,
      assigned_date := "NOW", sent := false, sent_date := none, responded := false,
      draft_created := false })]

/-- C1 counterexample: when the unchanged pool contains the same key string
at an index below `N` and again at an index `≥ N`, a resumed run satisfies
the claim's hypotheses (the ledger's keys are exactly the first `N` pool
entries) yet hands a new recipient a key that was already assigned — the
claim as stated fails without a distinctness assumption on the pool. -/
theorem generate_campaign_reissue_counterexample :
    generate_campaign [c1Influencer] c1DupKeys c1DupLedger none false false
        (fun _ => false) "NOW" = CampaignResult.ok c1DupRes ∧
      c1DupLedger.map (fun e => e.2.key) = c1DupKeys.take c1DupLedger.length ∧
      ∃ e ∈ c1DupRes, e ∉ c1DupLedger ∧ e.2.key ∈ c1DupLedger.map (fun e => e.2.key) := by
  decide
